import Mathlib

/-!
Shallow embedding of the buffering engine `BufferedProxy` (src/src/Buffer.cpp,
header src/include/Buffer/Buffer.h) and proofs about the claims of its
specification.

Conventions of the embedding:
* C++ `int` values are modelled as `Int`; C++ `/` and `%` on `int` truncate
  toward zero, so they are modelled by `Int.tdiv` and `Int.tmod`.
* Byte memory (the window, client buffers, device contents) is modelled as a
  total map from addresses to byte values (`Mem`); `memcpy` is a range update.
* The buffered object (the device the engine talks to) is an abstract
  capability record `DevModel` over an arbitrary device-state type, exactly
  mirroring `BufferedProxy::BufferedObject` (seek/read/write in blocks).
* The engine is split into the construction-time constants (`Cfg`, the fields
  the constructor sets and no method ever changes) and the mutable state
  (`St`, the fields `m_Point`, `m_BufferLoc`, `m_DataSize`, `m_IsDirty` and
  the window contents).
* The two `while` loops of `BufferedProxy::Write` and the one of
  `BufferedProxy::Read` are modelled with a fuel parameter chosen large
  enough that it is never exhausted on the traces the theorems talk about.
-/

/-- Byte memory: a total map from (integer) addresses to byte values. -/
def Mem : Type := Int → Int

/-- C `memcpy`: copy `n` bytes starting at `srcOff` of `src` into `dst`
starting at `dstOff`. A nonpositive `n` copies nothing. -/
def memcpy (dst : Mem) (dstOff : Int) (src : Mem) (srcOff n : Int) : Mem :=
  fun i => if dstOff ≤ i ∧ i < dstOff + n then src (srcOff + (i - dstOff)) else dst i

/-- `_IsPowerOf2` from Buffer.cpp: `((n & (n - 1)) == 0)`. -/
def isPowerOf2cpp (n : Int) : Bool := Int.land n (n - 1) == 0

/-- `_IsMultipleOf` from Buffer.cpp: `(n % m == 0)`. -/
def isMultipleOfCpp (n m : Int) : Bool := Int.tmod n m == 0

/-- `_IsAligned` from Buffer.cpp: `((n & align) == 0)`, `align` being a mask. -/
def isAlignedCpp (n align : Int) : Bool := Int.land n align == 0

/-- `_HighestMultiple` from Buffer.cpp: `(n - n % m)`. -/
def highestMultiple (n m : Int) : Int := n - Int.tmod n m

/-- `_HighestMultiplePowerOf2` from Buffer.cpp: `(n & ~align)`. -/
def highestMultiplePowerOf2 (n align : Int) : Int := Int.land n (Int.lnot align)

/-- Flag `CF_NO_DIRECT_IO` from Buffer.h. -/
def CF_NO_DIRECT_IO : Nat := 4

/-- Flag `CF_NO_FILLS` from Buffer.h. -/
def CF_NO_FILLS : Nat := 8

/-- The capability contract of the buffered object
(`BufferedProxy::BufferedObject`): seek, read and write, addressed in blocks,
over an arbitrary device-state type `δ`. `read` returns the number of blocks
actually transferred together with the transferred bytes as a map from byte
offsets (offset 0 = first transferred byte); `write` receives the source bytes
as a map from byte offsets and returns the number of blocks actually
transferred; `seek` returns the resulting block location. -/
structure DevModel (δ : Type) where
  seek : δ → Int → Int × δ
  read : δ → Int → Int × Mem × δ
  write : δ → Mem → Int → Int × δ

/-- The construction-time constants of `BufferedProxy`: the fields the
constructor initializes and no method ever mutates. The two alignments are
stored as masks (value minus one), exactly as `m_SectorAlign` and
`m_BufferAlign` are stored. -/
structure Cfg where
  bufferSize : Int
  bufferSizeInBlocks : Int
  blockSize : Int
  sectorAlignMask : Int
  bufferAlignMask : Int
  flags : Nat

/-- The mutable state of `BufferedProxy`: `m_Point`, `m_BufferLoc`,
`m_DataSize`, `m_IsDirty` and the window contents `m_paBuffer[0..]`
(window bytes addressed from offset 0). -/
structure St where
  point : Int
  bufferLoc : Int
  dataSize : Int
  isDirty : Bool
  buffer : Mem

/-- `BufferedProxy::RemainingReadAmount`. -/
def remainingReadAmount (cfg : Cfg) (s : St) : Int :=
  s.dataSize * cfg.blockSize - s.point

/-- `BufferedProxy::RemainingWriteSpace`. -/
def remainingWriteSpace (cfg : Cfg) (s : St) : Int :=
  cfg.bufferSizeInBlocks * cfg.blockSize - s.point

/-- `BufferedProxy::CopyOut`: copy `n` bytes from the window at the cursor to
client memory at `dstAddr`; advances the cursor and the client pointer.
Returns (new state, new client memory, advanced client pointer). -/
def copyOut (s : St) (mem : Mem) (dstAddr n : Int) : St × Mem × Int :=
  ({ s with point := s.point + n },
   memcpy mem dstAddr s.buffer s.point n,
   dstAddr + n)

/-- `BufferedProxy::CopyIn`: copy `n` bytes from client memory at `srcAddr`
into the window at the cursor; advances the cursor and the client pointer,
marks the window dirty, and grows `m_DataSize` when the cursor moved past the
current data. Returns (new state, advanced client pointer). -/
def copyIn (cfg : Cfg) (s : St) (mem : Mem) (srcAddr n : Int) : St × Int :=
  let newPoint := s.point + n
  ({ s with
      buffer := memcpy s.buffer s.point mem srcAddr n
      point := newPoint
      isDirty := true
      dataSize :=
        if s.dataSize * cfg.blockSize < newPoint then
          Int.tdiv (newPoint + cfg.blockSize - 1) cfg.blockSize
        else s.dataSize },
   srcAddr + n)

/-- `BufferedProxy::Flush`. -/
def flushOp {δ : Type} (dm : DevModel δ) (s : St) (d : δ) : St × δ :=
  if s.isDirty = true ∧ 0 < s.dataSize then
    let r := dm.seek d s.bufferLoc
    if r.1 = s.bufferLoc then
      let w := dm.write r.2 s.buffer s.dataSize
      if w.1 = s.dataSize then ({ s with isDirty := false }, w.2) else (s, w.2)
    else (s, r.2)
  else (s, d)

/-- `BufferedProxy::Fill`. -/
def fillOp {δ : Type} (cfg : Cfg) (dm : DevModel δ) (s : St) (d : δ) : St × δ :=
  let sd :=
    if cfg.flags &&& CF_NO_FILLS == 0 then
      let r := dm.seek d s.bufferLoc
      if r.1 = s.bufferLoc then
        let rd := dm.read r.2 cfg.bufferSizeInBlocks
        ({ s with
            dataSize := rd.1
            buffer := memcpy s.buffer 0 rd.2.1 0 (rd.1 * cfg.blockSize) },
         rd.2.2)
      else (s, r.2)
    else (s, d)
  ({ sd.1 with point := 0 }, sd.2)

/-- The indirect bulk loop of `BufferedProxy::Read`
(`while (n >= m_BufferSize) { ... }`), with fuel.
Arguments and results: state, device, client memory, client pointer,
total bytes read so far, remaining `n`. -/
def readLoop {δ : Type} (cfg : Cfg) (dm : DevModel δ) :
    Nat → St → δ → Mem → Int → Int → Int → St × δ × Mem × Int × Int × Int
  | 0, s, d, mem, dstAddr, total, n => (s, d, mem, dstAddr, total, n)
  | fuel+1, s, d, mem, dstAddr, total, n =>
    if cfg.bufferSize ≤ n then
      let sA := { s with bufferLoc := s.bufferLoc + s.dataSize }
      let fl := fillOp cfg dm sA d
      let s1 := fl.1
      let c := copyOut s1 mem dstAddr (s1.dataSize * cfg.blockSize)
      let total1 := total + s1.dataSize * cfg.blockSize
      let n1 := n - s1.dataSize * cfg.blockSize
      if s1.dataSize < cfg.bufferSize then
        (c.1, fl.2, c.2.1, c.2.2, total1, n1)
      else
        readLoop cfg dm fuel c.1 fl.2 c.2.1 c.2.2 total1 n1
    else (s, d, mem, dstAddr, total, n)

/-- First block of `BufferedProxy::Read`: serve what is already resident in
the window. Returns (state, client memory, client pointer, total, remaining n). -/
def readStep1 (cfg : Cfg) (s : St) (mem : Mem) (dstAddr n : Int) :
    St × Mem × Int × Int × Int :=
  let b1 := min n (remainingReadAmount cfg s)
  if 0 < b1 then
    let c := copyOut s mem dstAddr b1
    (c.1, c.2.1, c.2.2, b1, n - b1)
  else (s, mem, dstAddr, 0, n)

/-- Second block of `BufferedProxy::Read` (`if (n >= m_BufferSize)`): flush,
then either one direct device read or the indirect buffer-at-a-time loop. -/
def readStep2 {δ : Type} (cfg : Cfg) (dm : DevModel δ) (d : δ)
    (x : St × Mem × Int × Int × Int) : St × δ × Mem × Int × Int × Int :=
  let s1 := x.1
  let mem1 := x.2.1
  let dst1 := x.2.2.1
  let total1 := x.2.2.2.1
  let n1 := x.2.2.2.2
  if cfg.bufferSize ≤ n1 then
    let f := flushOp dm s1 d
    if ((cfg.flags &&& CF_NO_DIRECT_IO == 0) &&
        isAlignedCpp dst1 cfg.bufferAlignMask) = true then
      let sA := { f.1 with bufferLoc := f.1.bufferLoc + f.1.dataSize }
      let blocksToRead := Int.tdiv (highestMultiple n1 cfg.bufferSize) cfg.blockSize
      let rd := dm.read f.2 blocksToRead
      let bytesRead := rd.1 * cfg.blockSize
      let sB := { sA with bufferLoc := sA.bufferLoc + rd.1, point := 0, dataSize := 0 }
      (sB, rd.2.2, memcpy mem1 dst1 rd.2.1 0 bytesRead, dst1 + bytesRead,
       total1 + bytesRead, n1 - bytesRead)
    else
      let r := readLoop cfg dm (n1.toNat + 1) f.1 f.2 mem1 dst1 total1 n1
      (r.1, r.2.1, r.2.2.1, r.2.2.2.1, r.2.2.2.2.1, r.2.2.2.2.2)
  else (s1, d, mem1, dst1, total1, n1)

/-- Third block of `BufferedProxy::Read` (`if (n > 0)`): read the tail
through the window. Returns (bytes read, state, device, client memory). -/
def readStep3 {δ : Type} (cfg : Cfg) (dm : DevModel δ)
    (x : St × δ × Mem × Int × Int × Int) : Int × St × δ × Mem :=
  let s2 := x.1
  let d2 := x.2.1
  let mem2 := x.2.2.1
  let dst2 := x.2.2.2.1
  let total2 := x.2.2.2.2.1
  let n2 := x.2.2.2.2.2
  if 0 < n2 then
    let f := flushOp dm s2 d2
    let sB := { f.1 with bufferLoc := f.1.bufferLoc + f.1.dataSize }
    let fl := fillOp cfg dm sB f.2
    let b3 := min n2 (remainingReadAmount cfg fl.1)
    if 0 < b3 then
      let c := copyOut fl.1 mem2 dst2 b3
      (total2 + b3, c.1, fl.2, c.2.1)
    else (total2, fl.1, fl.2, mem2)
  else (total2, s2, d2, mem2)

/-- `BufferedProxy::Read`. Returns (bytes read, final state, final device,
final client memory). The three stages mirror the three sequential blocks of
the C++ function. -/
def readOp {δ : Type} (cfg : Cfg) (dm : DevModel δ) (s : St) (d : δ)
    (mem : Mem) (dstAddr n : Int) : Int × St × δ × Mem :=
  readStep3 cfg dm (readStep2 cfg dm d (readStep1 cfg s mem dstAddr n))

/-- The indirect bulk loop of `BufferedProxy::Write`
(`while (n >= m_BufferSize) { ... }`), with fuel.
Arguments and results: state, device, client pointer, total, remaining `n`. -/
def writeBulkLoop {δ : Type} (cfg : Cfg) (dm : DevModel δ) (mem : Mem) :
    Nat → St → δ → Int → Int → Int → St × δ × Int × Int × Int
  | 0, s, d, srcAddr, total, n => (s, d, srcAddr, total, n)
  | fuel+1, s, d, srcAddr, total, n =>
    if cfg.bufferSize ≤ n then
      let c := copyIn cfg s mem srcAddr cfg.bufferSize
      let f := flushOp dm c.1 d
      let s2 := { f.1 with bufferLoc := f.1.bufferLoc + cfg.bufferSizeInBlocks }
      writeBulkLoop cfg dm mem fuel s2 f.2 c.2 (total + cfg.bufferSize) (n - cfg.bufferSize)
    else (s, d, srcAddr, total, n)

/-- The trailing loop of `BufferedProxy::Write` (`while (n > 0) { ... }`,
with its `break` when no write space remains), with fuel. -/
def writeTailLoop {δ : Type} (cfg : Cfg) (dm : DevModel δ) (mem : Mem) :
    Nat → St → δ → Int → Int → Int → St × δ × Int × Int × Int
  | 0, s, d, srcAddr, total, n => (s, d, srcAddr, total, n)
  | fuel+1, s, d, srcAddr, total, n =>
    if 0 < n then
      let f := flushOp dm s d
      let fl :=
        if n < cfg.bufferSize ∧ cfg.flags &&& CF_NO_FILLS == 0 then
          fillOp cfg dm f.1 f.2
        else (f.1, f.2)
      let b := min n (remainingWriteSpace cfg fl.1)
      if b ≤ 0 then (fl.1, fl.2, srcAddr, total, n)
      else
        let c := copyIn cfg fl.1 mem srcAddr b
        let next :=
          if cfg.bufferSize ≤ c.1.point then flushOp dm c.1 fl.2
          else (c.1, fl.2)
        writeTailLoop cfg dm mem fuel next.1 next.2 c.2 (total + b) (n - b)
    else (s, d, srcAddr, total, n)

/-- First block of `BufferedProxy::Write`: fill the remaining window space.
Returns (state, client pointer, total, remaining n). -/
def writeStep1 (cfg : Cfg) (s : St) (mem : Mem) (srcAddr n : Int) :
    St × Int × Int × Int :=
  let b1 := min n (remainingWriteSpace cfg s)
  if 0 < b1 then
    let c := copyIn cfg s mem srcAddr b1
    (c.1, c.2, b1, n - b1)
  else (s, srcAddr, 0, n)

/-- Second block of `BufferedProxy::Write` (`if (n >= m_BufferSize)`): flush,
reposition, then either one direct device write or the indirect loop. -/
def writeStep2 {δ : Type} (cfg : Cfg) (dm : DevModel δ) (d : δ) (mem : Mem)
    (x : St × Int × Int × Int) : St × δ × Int × Int × Int :=
  let s1 := x.1
  let src1 := x.2.1
  let total1 := x.2.2.1
  let n1 := x.2.2.2
  if cfg.bufferSize ≤ n1 then
    let f := flushOp dm s1 d
    let sA := { f.1 with bufferLoc := f.1.bufferLoc + f.1.dataSize }
    if ((cfg.flags &&& CF_NO_DIRECT_IO == 0) &&
        isAlignedCpp src1 cfg.bufferAlignMask) = true then
      let blocksToWrite := Int.tdiv (highestMultiple n1 cfg.bufferSize) cfg.blockSize
      let w := dm.write f.2 (fun j => mem (src1 + j)) blocksToWrite
      let bytesWritten := w.1 * cfg.blockSize
      let sB := { sA with bufferLoc := sA.bufferLoc + w.1, point := 0, dataSize := 0 }
      (sB, w.2, src1 + bytesWritten, total1 + bytesWritten, n1 - bytesWritten)
    else
      let r := writeBulkLoop cfg dm mem (n1.toNat + 1) sA f.2 src1 total1 n1
      (r.1, r.2.1, r.2.2.1, r.2.2.2.1, r.2.2.2.2)
  else (s1, d, src1, total1, n1)

/-- Third block of `BufferedProxy::Write`: the trailing `while (n > 0)` loop
and the returned byte count. Returns (bytes written, state, device). -/
def writeStep3 {δ : Type} (cfg : Cfg) (dm : DevModel δ) (mem : Mem)
    (x : St × δ × Int × Int × Int) : Int × St × δ :=
  let r := writeTailLoop cfg dm mem (x.2.2.2.2.toNat + 1)
             x.1 x.2.1 x.2.2.1 x.2.2.2.1 x.2.2.2.2
  (r.2.2.2.1, r.1, r.2.1)

/-- `BufferedProxy::Write`. Returns (bytes written, final state, final
device). The three stages mirror the three sequential blocks of the C++
function. -/
def writeOp {δ : Type} (cfg : Cfg) (dm : DevModel δ) (s : St) (d : δ)
    (mem : Mem) (srcAddr n : Int) : Int × St × δ :=
  writeStep3 cfg dm mem (writeStep2 cfg dm d mem (writeStep1 cfg s mem srcAddr n))

/-- `BufferedProxy::Seek`. Returns (returned location, final state, final
device). -/
def seekOp {δ : Type} (cfg : Cfg) (dm : DevModel δ) (s : St) (d : δ)
    (location : Int) : Int × St × δ :=
  if s.bufferLoc * cfg.blockSize ≤ location ∧
     location < (s.bufferLoc + s.dataSize) * cfg.blockSize then
    (location, { s with point := location - s.bufferLoc * cfg.blockSize }, d)
  else
    let f := flushOp dm s d
    let alignedLocation := highestMultiplePowerOf2 location cfg.sectorAlignMask
    let r := dm.seek f.2 (Int.tdiv alignedLocation cfg.blockSize)
    let s1 := { f.1 with bufferLoc := r.1 }
    let fl := fillOp cfg dm s1 r.2
    let s2 := { fl.1 with point := fl.1.point + (location - fl.1.bufferLoc * cfg.blockSize) }
    (location, s2, fl.2)

/-- `BufferedProxy::BufferedProxy`. `bufferAddr` is the integer value of the
supplied window address `pBuffer`. Returns the constants and the initial state
on success, `none` when the constructor throws `ConstructorFailedException`.
The constructor performs no device operation, which is visible in the type:
no device appears. -/
def construct (bufferAddr bufferSize : Int) (flags : Nat)
    (blockSize sectorAlign bufferAlign : Int) (initialBuffer : Mem) :
    Option (Cfg × St) :=
  if isPowerOf2cpp sectorAlign = false then none
  else if isPowerOf2cpp bufferAlign = false then none
  else if ¬ Int.tmod bufferSize blockSize = 0 then none
  else if isAlignedCpp bufferAddr (bufferAlign - 1) = false then none
  else if blockSize < sectorAlign ∧ isMultipleOfCpp sectorAlign blockSize = false then none
  else if ¬ blockSize < sectorAlign ∧ isMultipleOfCpp blockSize sectorAlign = false then none
  else some
    ({ bufferSize := bufferSize
       bufferSizeInBlocks := Int.tdiv bufferSize blockSize
       blockSize := blockSize
       sectorAlignMask := sectorAlign - 1
       bufferAlignMask := bufferAlign - 1
       flags := flags },
     { point := 0, bufferLoc := 0, dataSize := 0, isDirty := false
       buffer := initialBuffer })

/-- A fault-free block device of fixed capacity (in blocks): reads and writes
transfer whole blocks, are clamped at the end of the device, and advance the
position; a seek repositions exactly as requested and reports it. -/
structure FlatDev where
  blockSize : Int
  capacity : Int
  pos : Int
  contents : Mem

/-- Seek of the fault-free device. -/
def flatSeek (d : FlatDev) (loc : Int) : Int × FlatDev :=
  (loc, { d with pos := loc })

/-- Read of the fault-free device. -/
def flatRead (d : FlatDev) (n : Int) : Int × Mem × FlatDev :=
  let k := max 0 (min n (d.capacity - d.pos))
  (k, fun j => d.contents (d.pos * d.blockSize + j), { d with pos := d.pos + k })

/-- Write of the fault-free device. -/
def flatWrite (d : FlatDev) (src : Mem) (n : Int) : Int × FlatDev :=
  let k := max 0 (min n (d.capacity - d.pos))
  (k, { d with
          pos := d.pos + k
          contents := memcpy d.contents (d.pos * d.blockSize) src 0 (k * d.blockSize) })

/-- The fault-free device as a `DevModel`. -/
def flatDM : DevModel FlatDev :=
  { seek := flatSeek, read := flatRead, write := flatWrite }

/-- Device state instrumented with counters of issued operations. -/
structure Counted (δ : Type) where
  dev : δ
  seeks : Nat
  reads : Nat
  writes : Nat

/-- Wrap a device model so that every operation the engine issues is counted. -/
def countingDev {δ : Type} (dm : DevModel δ) : DevModel (Counted δ) where
  seek := fun d loc =>
    let r := dm.seek d.dev loc
    (r.1, { d with dev := r.2, seeks := d.seeks + 1 })
  read := fun d n =>
    let r := dm.read d.dev n
    (r.1, r.2.1, { d with dev := r.2.2, reads := d.reads + 1 })
  write := fun d src n =>
    let r := dm.write d.dev src n
    (r.1, { d with dev := r.2, writes := d.writes + 1 })

/-- A device that confirms every seek, reads nothing, and answers successive
writes with a scripted list of transfer counts (short writes where the script
says so; 0 blocks once the script is exhausted). -/
structure ScriptDev where
  writeResults : List Int

/-- The scripted device as a `DevModel`. -/
def scriptDM : DevModel ScriptDev where
  seek := fun d loc => (loc, d)
  read := fun d _ => (0, fun _ => 0, d)
  write := fun d _ _ =>
    match d.writeResults with
    | [] => (0, { writeResults := [] })
    | r :: rest => (r, { writeResults := rest })

/-- All-zero byte memory. -/
def zeroMem : Mem := fun _ => 0

/-- The state every successful construction starts in. -/
def emptySt : St :=
  { point := 0, bufferLoc := 0, dataSize := 0, isDirty := false, buffer := zeroMem }

/-- Constants produced by
`BufferedProxy(buf, 4096, h, obj, CF_NO_DIRECT_IO, 512, 512, 1)`. -/
def cfgNoDirect : Cfg :=
  { bufferSize := 4096, bufferSizeInBlocks := 8, blockSize := 512
    sectorAlignMask := 511, bufferAlignMask := 0, flags := CF_NO_DIRECT_IO }

/-- A fault-free 24-block (12288-byte) device, position 0, zeroed contents. -/
def flat24 : FlatDev := { blockSize := 512, capacity := 24, pos := 0, contents := zeroMem }

/-- Claim C1: the indirect read loop is supposed to keep looping while at
least `bufferSize` bytes remain and each fill returns a full window, stopping
early exactly when a fill comes back short. The code instead compares
`m_DataSize` (in blocks) against `m_BufferSize` (in bytes), so whenever
`blockSize > 1` the loop breaks after its first iteration even though the
fill was full: on a validly constructed engine (4096-byte window, 512-byte
blocks, `CF_NO_DIRECT_IO`) over a fault-free device holding exactly 12288
bytes, a 12288-byte read returns only 8192 bytes. -/
theorem c1_read_loop_stops_after_full_fill :
    construct 0 4096 CF_NO_DIRECT_IO 512 512 1 zeroMem = some (cfgNoDirect, emptySt) ∧
    flat24.capacity * cfgNoDirect.blockSize = 12288 ∧
    (readOp cfgNoDirect flatDM emptySt flat24 zeroMem 0 12288).1 = 8192 :=
  ⟨rfl, by decide, by decide⟩

/-- Constants produced by `BufferedProxy(buf, 1024, h, obj, 0, 512, 1024, 1)`
(sector alignment 1024 bytes = two 512-byte blocks). -/
def cfgSector1024 : Cfg :=
  { bufferSize := 1024, bufferSizeInBlocks := 2, blockSize := 512
    sectorAlignMask := 1023, bufferAlignMask := 0, flags := 0 }

/-- A fault-free 3-block (1536-byte) device, position 0, zeroed contents. -/
def flat3 : FlatDev := { blockSize := 512, capacity := 3, pos := 0, contents := zeroMem }

/-- Claim C3: `windowLocation` is supposed to stay sector-aligned (as a byte
address) at every observable point, and `BufferedProxy::Flush` itself asserts
`_IsAligned(m_BufferLoc * m_BlockSize, m_SectorAlign)`. On a validly
constructed engine with `sectorAlign = 1024 > blockSize = 512` over a
fault-free 3-block device, a 2048-byte read takes the direct path, the device
answers the 4-block request with only 3 blocks, the code advances
`m_BufferLoc` by the 3 transferred blocks, and the trailing fill then seeks
and reads at block 3 (byte 1536, not 1024-aligned); the call ends at an
observable point with `windowLocation * blockSize = 1536` unaligned. -/
theorem c3_window_location_loses_sector_alignment :
    (readOp cfgSector1024 flatDM emptySt flat3 zeroMem 0 2048).2.1.bufferLoc = 3 ∧
    (readOp cfgSector1024 flatDM emptySt flat3 zeroMem 0 2048).2.2.1.pos = 3 ∧
    isAlignedCpp (3 * cfgSector1024.blockSize) cfgSector1024.sectorAlignMask = false ∧
    construct 0 1024 0 512 1024 1 zeroMem = some (cfgSector1024, emptySt) :=
  ⟨by decide, by decide, by decide, rfl⟩

/-- A fault-free 100-block device, position 0, zeroed contents. -/
def flat100 : FlatDev := { blockSize := 512, capacity := 100, pos := 0, contents := zeroMem }

/-- Claim C4: the cursor is supposed to satisfy `0 ≤ cursor ≤ bufferSize` at
every observable point. The indirect bulk-write loop of
`BufferedProxy::Write` calls `CopyIn(&pSrc, m_BufferSize)` without resetting
`m_Point` after the flush, violating `CopyIn`'s own assertion
`m_Point + n <= m_BufferSize`: on a validly constructed engine (4096-byte
window, `CF_NO_DIRECT_IO`) over a fault-free device, an 8192-byte write from
a fresh state ends at an observable point with cursor 8192 (and
`m_DataSize = 16 > bufferSizeInBlocks = 8`). -/
theorem c4_cursor_exceeds_buffer_size_on_bulk_indirect_write :
    (writeOp cfgNoDirect flatDM emptySt flat100 zeroMem 0 8192).2.1.point = 8192 ∧
    ¬ (writeOp cfgNoDirect flatDM emptySt flat100 zeroMem 0 8192).2.1.point ≤
        cfgNoDirect.bufferSize ∧
    (writeOp cfgNoDirect flatDM emptySt flat100 zeroMem 0 8192).2.1.dataSize = 16 ∧
    (writeOp cfgNoDirect flatDM emptySt flat100 zeroMem 0 8192).1 = 8192 :=
  ⟨by decide, by decide, by decide, by decide⟩

/-- Constants produced by `BufferedProxy(buf, 2, h, obj, 0, 1, 1, 1)`. -/
def cfgTwo : Cfg :=
  { bufferSize := 2, bufferSizeInBlocks := 2, blockSize := 1
    sectorAlignMask := 0, bufferAlignMask := 0, flags := 0 }

/-- A counted scripted device whose first write is short (0 of the requested
blocks) and whose second write transfers 1 block. -/
def scriptShortThenFull : Counted ScriptDev :=
  { dev := { writeResults := [0, 1] }, seeks := 0, reads := 0, writes := 0 }

/-- Claim C6 counterexample: after a 1-byte client write leaves the engine
dirty, two consecutive `flush()` calls with no intervening write issue TWO
actual device writes when the first write comes back short: the first flush
leaves the engine dirty (so the second call is not a no-op) and the second
flush retries the device write. -/
theorem c6_counterexample_two_flushes_two_device_writes :
    construct 0 2 0 1 1 1 zeroMem = some (cfgTwo, emptySt) ∧
    (writeOp cfgTwo (countingDev scriptDM) emptySt scriptShortThenFull zeroMem 0 1).1 = 1 ∧
    (flushOp (countingDev scriptDM)
      (writeOp cfgTwo (countingDev scriptDM) emptySt scriptShortThenFull zeroMem 0 1).2.1
      (writeOp cfgTwo (countingDev scriptDM) emptySt scriptShortThenFull zeroMem 0 1).2.2).1.isDirty
      = true ∧
    (flushOp (countingDev scriptDM)
      (writeOp cfgTwo (countingDev scriptDM) emptySt scriptShortThenFull zeroMem 0 1).2.1
      (writeOp cfgTwo (countingDev scriptDM) emptySt scriptShortThenFull zeroMem 0 1).2.2).2.writes
      = 1 ∧
    (flushOp (countingDev scriptDM)
      (flushOp (countingDev scriptDM)
        (writeOp cfgTwo (countingDev scriptDM) emptySt scriptShortThenFull zeroMem 0 1).2.1
        (writeOp cfgTwo (countingDev scriptDM) emptySt scriptShortThenFull zeroMem 0 1).2.2).1
      (flushOp (countingDev scriptDM)
        (writeOp cfgTwo (countingDev scriptDM) emptySt scriptShortThenFull zeroMem 0 1).2.1
        (writeOp cfgTwo (countingDev scriptDM) emptySt scriptShortThenFull zeroMem 0 1).2.2).2).2.writes
      = 2 :=
  ⟨rfl, by decide, by decide, by decide, by decide⟩

/-- `Fill` ends with `m_Point = 0` on every path. -/
theorem fillOp_point_eq_zero {δ : Type} (cfg : Cfg) (dm : DevModel δ) (s : St) (d : δ) :
    (fillOp cfg dm s d).1.point = 0 := rfl

/-- `Fill` never changes `m_BufferLoc`. -/
theorem fillOp_bufferLoc_eq {δ : Type} (cfg : Cfg) (dm : DevModel δ) (s : St) (d : δ) :
    (fillOp cfg dm s d).1.bufferLoc = s.bufferLoc := by
  by_cases hf : (cfg.flags &&& CF_NO_FILLS == 0) = true
  · by_cases h2 : (dm.seek d s.bufferLoc).1 = s.bufferLoc
    · simp [fillOp, hf, h2]
    · simp [fillOp, hf, h2]
  · simp [fillOp, hf]

/-- Claim C5: `flush()` is a no-op unless the engine is dirty with
`dataSize > 0`; otherwise it seeks the device to `windowLocation` (one seek
issued), issues the write of `dataSize` blocks exactly when the device
reports that location, clears the dirty flag exactly when the device reports
`dataSize` blocks transferred, and on any mismatch (wrong seek answer or
short write) leaves the whole engine state unchanged and does not retry: the
device has seen only the seek (and, after a confirmed seek, only the one
write). -/
theorem c5_flush_device_error_handling {δ : Type} (dm : DevModel δ) (s : St) (d : Counted δ) :
    (¬(s.isDirty = true ∧ 0 < s.dataSize) → flushOp (countingDev dm) s d = (s, d)) ∧
    (s.isDirty = true → 0 < s.dataSize →
      (flushOp (countingDev dm) s d).2.seeks = d.seeks + 1 ∧
      ((dm.seek d.dev s.bufferLoc).1 = s.bufferLoc →
        (flushOp (countingDev dm) s d).2.writes = d.writes + 1 ∧
        ((flushOp (countingDev dm) s d).1.isDirty = false ↔
          (dm.write (dm.seek d.dev s.bufferLoc).2 s.buffer s.dataSize).1 = s.dataSize) ∧
        (¬ (dm.write (dm.seek d.dev s.bufferLoc).2 s.buffer s.dataSize).1 = s.dataSize →
          (flushOp (countingDev dm) s d).1 = s ∧
          (flushOp (countingDev dm) s d).2.dev =
            (dm.write (dm.seek d.dev s.bufferLoc).2 s.buffer s.dataSize).2)) ∧
      (¬ (dm.seek d.dev s.bufferLoc).1 = s.bufferLoc →
        (flushOp (countingDev dm) s d).2.writes = d.writes ∧
        (flushOp (countingDev dm) s d).1 = s ∧
        (flushOp (countingDev dm) s d).2.dev = (dm.seek d.dev s.bufferLoc).2)) := by
  by_cases h1 : s.isDirty = true ∧ 0 < s.dataSize
  · by_cases h2 : (dm.seek d.dev s.bufferLoc).1 = s.bufferLoc
    · by_cases h3 : (dm.write (dm.seek d.dev s.bufferLoc).2 s.buffer s.dataSize).1 = s.dataSize
      · simp [flushOp, h1, h2, h3, countingDev]
      · simp [flushOp, h1, h2, h3, countingDev, h1.1]
    · simp [flushOp, h1, h2, countingDev]
  · simp [flushOp, h1]
    intro hd
    have hds : ¬ 0 < s.dataSize := fun hds => h1 ⟨hd, hds⟩
    omega

/-- A dirty one-block state used to witness the flush theorems. -/
def sDirtyOne : St :=
  { point := 0, bufferLoc := 0, dataSize := 1, isDirty := true, buffer := zeroMem }

/-- A counted scripted device whose single write answer is short (0 blocks). -/
def countedScriptZero : Counted ScriptDev :=
  { dev := { writeResults := [0] }, seeks := 0, reads := 0, writes := 0 }

/-- Witness for C5: on a dirty one-block state over a device that confirms
the seek but reports a short write, `flush()` issues exactly one write and
leaves the state untouched (dirty flag included). -/
theorem c5_flush_device_error_handling_witness :
    (flushOp (countingDev scriptDM) sDirtyOne countedScriptZero).1 = sDirtyOne ∧
    (flushOp (countingDev scriptDM) sDirtyOne countedScriptZero).2.writes = 1 := by
  have h := c5_flush_device_error_handling scriptDM sDirtyOne countedScriptZero
  have hB := (h.2 rfl (by decide)).2.1 rfl
  exact ⟨(hB.2.2 (by decide)).1, hB.1⟩

/-- Claim C6 (amended): provided the device answers every seek with the
requested location and every write with the full requested block count,
calling `flush()` twice in a row with no intervening write performs at most
one actual device write, and the second call is a complete no-op (the engine
is no longer dirty after the first call). -/
theorem c6_flush_idempotent_when_device_transfers_succeed {δ : Type}
    (dm : DevModel δ) (s : St) (d : Counted δ)
    (hseek : ∀ dd loc, (dm.seek dd loc).1 = loc)
    (hwrite : ∀ dd b k, (dm.write dd b k).1 = k) :
    flushOp (countingDev dm)
        (flushOp (countingDev dm) s d).1 (flushOp (countingDev dm) s d).2 =
      ((flushOp (countingDev dm) s d).1, (flushOp (countingDev dm) s d).2) ∧
    (flushOp (countingDev dm) s d).2.writes ≤ d.writes + 1 ∧
    (flushOp (countingDev dm)
        (flushOp (countingDev dm) s d).1 (flushOp (countingDev dm) s d).2).2.writes
      ≤ d.writes + 1 := by
  by_cases h1 : s.isDirty = true ∧ 0 < s.dataSize
  · simp [flushOp, h1, countingDev, hseek, hwrite]
  · simp [flushOp, h1, countingDev]

/-- A device that always confirms seeks and always transfers everything. -/
def perfectDM : DevModel Int :=
  { seek := fun _ loc => (loc, loc)
    read := fun d n => (n, fun _ => 0, d + n)
    write := fun d _ n => (n, d + n) }

/-- The perfect device, counted, at position 0 with zeroed counters. -/
def countedPerfectZero : Counted Int := { dev := 0, seeks := 0, reads := 0, writes := 0 }

/-- Witness for the amended C6: over the always-succeeding device, flushing a
dirty one-block state twice is idempotent after the first call and issues at
most one device write. -/
theorem c6_flush_idempotent_witness :
    flushOp (countingDev perfectDM)
        (flushOp (countingDev perfectDM) sDirtyOne countedPerfectZero).1
        (flushOp (countingDev perfectDM) sDirtyOne countedPerfectZero).2 =
      ((flushOp (countingDev perfectDM) sDirtyOne countedPerfectZero).1,
       (flushOp (countingDev perfectDM) sDirtyOne countedPerfectZero).2) ∧
    (flushOp (countingDev perfectDM) sDirtyOne countedPerfectZero).2.writes ≤ 1 ∧
    (flushOp (countingDev perfectDM)
        (flushOp (countingDev perfectDM) sDirtyOne countedPerfectZero).1
        (flushOp (countingDev perfectDM) sDirtyOne countedPerfectZero).2).2.writes ≤ 1 :=
  c6_flush_idempotent_when_device_transfers_succeed perfectDM sDirtyOne countedPerfectZero
    (fun _ _ => rfl) (fun _ _ _ => rfl)

/-- Claim C7: `seek(location)`: when `location` falls inside
`[windowLocation*blockSize, (windowLocation+dataSize)*blockSize)` no device
operation is issued and only the cursor is repositioned; otherwise the engine
flushes, asks the device to seek to the sector-aligned floor of `location`
converted to blocks, records the device-reported block location as the new
`windowLocation`, fills from there, and sets the cursor to
`location - windowLocation*blockSize`; in both cases the returned value is
the originally requested `location`. -/
theorem c7_seek_contract {δ : Type} (cfg : Cfg) (dm : DevModel δ) (s : St) (d : Counted δ)
    (loc : Int) :
    (seekOp cfg (countingDev dm) s d loc).1 = loc ∧
    (s.bufferLoc * cfg.blockSize ≤ loc ∧ loc < (s.bufferLoc + s.dataSize) * cfg.blockSize →
      seekOp cfg (countingDev dm) s d loc =
        (loc, { s with point := loc - s.bufferLoc * cfg.blockSize }, d)) ∧
    (¬(s.bufferLoc * cfg.blockSize ≤ loc ∧ loc < (s.bufferLoc + s.dataSize) * cfg.blockSize) →
      (let f := flushOp (countingDev dm) s d
       let r := (countingDev dm).seek f.2
                  (Int.tdiv (highestMultiplePowerOf2 loc cfg.sectorAlignMask) cfg.blockSize)
       let fl := fillOp cfg (countingDev dm) { f.1 with bufferLoc := r.1 } r.2
       seekOp cfg (countingDev dm) s d loc =
         (loc, { fl.1 with point := loc - r.1 * cfg.blockSize }, fl.2) ∧
       (seekOp cfg (countingDev dm) s d loc).2.1.bufferLoc = r.1 ∧
       (seekOp cfg (countingDev dm) s d loc).2.1.point = loc - r.1 * cfg.blockSize)) := by
  refine ⟨?_, ?_, ?_⟩
  · by_cases h : s.bufferLoc * cfg.blockSize ≤ loc ∧
        loc < (s.bufferLoc + s.dataSize) * cfg.blockSize
    · simp [seekOp, h]
    · simp [seekOp, h]
  · intro h
    simp [seekOp, h]
  · intro h
    simp [seekOp, h, fillOp_bufferLoc_eq, fillOp_point_eq_zero]

/-- A clean state holding one block of data at block 0. -/
def sCleanOne : St :=
  { point := 0, bufferLoc := 0, dataSize := 1, isDirty := false, buffer := zeroMem }

/-- A counted scripted device with nothing scripted and zeroed counters. -/
def countedEmptyScript : Counted ScriptDev :=
  { dev := { writeResults := [] }, seeks := 0, reads := 0, writes := 0 }

/-- Witness for C7: an in-window seek (location 0 with one resident block)
repositions only the cursor and leaves the device (counters included)
untouched. -/
theorem c7_seek_contract_witness :
    seekOp cfgTwo (countingDev scriptDM) sCleanOne countedEmptyScript 0 =
      (0, { sCleanOne with point := 0 - sCleanOne.bufferLoc * cfgTwo.blockSize },
       countedEmptyScript) :=
  (c7_seek_contract cfgTwo scriptDM sCleanOne countedEmptyScript 0).2.1 (by decide)

/-- Claim C9: `flush()` never modifies the cursor, `windowLocation`,
`dataSize` or the window contents, never issues a device read, and the only
engine field it can change is the dirty flag, only from true to false. -/
theorem c9_flush_frame {δ : Type} (dm : DevModel δ) (s : St) (d : Counted δ) :
    (flushOp (countingDev dm) s d).1.point = s.point ∧
    (flushOp (countingDev dm) s d).1.bufferLoc = s.bufferLoc ∧
    (flushOp (countingDev dm) s d).1.dataSize = s.dataSize ∧
    (flushOp (countingDev dm) s d).1.buffer = s.buffer ∧
    (flushOp (countingDev dm) s d).2.reads = d.reads ∧
    ((flushOp (countingDev dm) s d).1.isDirty = true → s.isDirty = true) := by
  by_cases h1 : s.isDirty = true ∧ 0 < s.dataSize
  · by_cases h2 : (dm.seek d.dev s.bufferLoc).1 = s.bufferLoc
    · by_cases h3 : (dm.write (dm.seek d.dev s.bufferLoc).2 s.buffer s.dataSize).1 = s.dataSize
      · simp [flushOp, h1, h2, h3, countingDev]
      · simp [flushOp, h1, h2, h3, countingDev]
    · simp [flushOp, h1, h2, countingDev]
  · simp [flushOp, h1]

/-- Witness for C9: instantiating the frame theorem on a dirty one-block
state over the short-writing scripted device: the flush result is still
dirty, so the implication gives back that the initial state was dirty, and
no device read was issued. -/
theorem c9_flush_frame_witness :
    sDirtyOne.isDirty = true ∧
    (flushOp (countingDev scriptDM) sDirtyOne countedScriptZero).2.reads = 0 :=
  ⟨(c9_flush_frame scriptDM sDirtyOne countedScriptZero).2.2.2.2.2 (by decide),
   (c9_flush_frame scriptDM sDirtyOne countedScriptZero).2.2.2.2.1⟩

/-- Claim C10: on an engine with `bufferSize > 0`, `Read(dst, n)` and
`Write(src, n)` with `n ≤ 0` both return 0, issue no device operation, and
leave the engine state, the device, and client memory unchanged. -/
theorem c10_nonpositive_requests_are_noops {δ : Type} (cfg : Cfg) (dm : DevModel δ)
    (s : St) (d : Counted δ) (mem : Mem) (a n : Int)
    (hn : n ≤ 0) (hb : 0 < cfg.bufferSize) :
    readOp cfg (countingDev dm) s d mem a n = (0, s, d, mem) ∧
    writeOp cfg (countingDev dm) s d mem a n = (0, s, d) := by
  have h1 : ¬ 0 < min n (remainingReadAmount cfg s) := by omega
  have h1w : ¬ 0 < min n (remainingWriteSpace cfg s) := by omega
  have h2 : ¬ cfg.bufferSize ≤ n := by omega
  have h3 : ¬ 0 < n := by omega
  constructor
  · simp [readOp, readStep1, readStep2, readStep3, h1, h2, h3]
  · simp [writeOp, writeStep1, writeStep2, writeStep3, h1w, h2, h3, writeTailLoop]

/-- Witness for C10: a read and a write of -3 bytes on a fresh engine over
the scripted device return 0 and change nothing. -/
theorem c10_nonpositive_requests_are_noops_witness :
    readOp cfgTwo (countingDev scriptDM) emptySt countedEmptyScript zeroMem 0 (-3) =
      (0, emptySt, countedEmptyScript, zeroMem) ∧
    writeOp cfgTwo (countingDev scriptDM) emptySt countedEmptyScript zeroMem 0 (-3) =
      (0, emptySt, countedEmptyScript) :=
  c10_nonpositive_requests_are_noops cfgTwo scriptDM emptySt countedEmptyScript zeroMem 0 (-3)
    (by decide) (by decide)

/-- Bit lemma: for `a ≥ 1`, `(a + a) & (a + a - 1)` doubles `a & (a - 1)`. -/
theorem land_double_pred (a : Nat) (ha : 1 ≤ a) :
    (a + a) &&& (a + a - 1) = 2 * (a &&& (a - 1)) := by
  have h1 : a + a - 1 = 2 * (a - 1) + 1 := by omega
  have h2 : a + a = 2 * a := by omega
  rw [h1, h2]
  refine Nat.eq_of_testBit_eq fun i => ?_
  cases i with
  | zero =>
    simp [Nat.testBit_land, Nat.testBit_zero]
  | succ i =>
    rw [Nat.testBit_land]
    simp only [Nat.testBit_succ]
    have e1 : 2 * a / 2 = a := by omega
    have e2 : (2 * (a - 1) + 1) / 2 = a - 1 := by omega
    have e3 : 2 * (a &&& (a - 1)) / 2 = a &&& (a - 1) := by omega
    rw [e1, e2, e3, Nat.testBit_land]

/-- Bit lemma: an odd number and its predecessor share all bits above bit 0. -/
theorem land_odd_pred (a : Nat) :
    (2 * a + 1) &&& (2 * a) = 2 * a := by
  refine Nat.eq_of_testBit_eq fun i => ?_
  cases i with
  | zero =>
    simp [Nat.testBit_land, Nat.testBit_zero]
  | succ i =>
    rw [Nat.testBit_land]
    simp only [Nat.testBit_succ]
    have e1 : (2 * a + 1) / 2 = a := by omega
    have e2 : 2 * a / 2 = a := by omega
    rw [e1, e2, Bool.and_self]

/-- The classic trick behind `_IsPowerOf2`: for `m ≥ 1`,
`m & (m - 1) = 0` iff `m` is a power of two. -/
theorem land_pred_eq_zero_iff (m : Nat) (hm : 1 ≤ m) :
    m &&& (m - 1) = 0 ↔ ∃ k, m = 2 ^ k := by
  induction m using Nat.strong_induction_on with
  | _ m ih =>
    rcases Nat.even_or_odd m with ⟨a, rfl⟩ | ⟨a, rfl⟩
    · have ha : 1 ≤ a := by omega
      rw [land_double_pred a ha]
      constructor
      · intro h
        have h0 : a &&& (a - 1) = 0 := by omega
        obtain ⟨k, hk⟩ := (ih a (by omega) ha).1 h0
        exact ⟨k + 1, by rw [hk]; ring⟩
      · intro ⟨k, hk⟩
        match k with
        | 0 => omega
        | k + 1 =>
          have hak : a = 2 ^ k := by
            have : (2 : Nat) ^ (k + 1) = 2 * 2 ^ k := by ring
            omega
          have h0 : a &&& (a - 1) = 0 := (ih a (by omega) ha).2 ⟨k, hak⟩
          omega
    · rcases Nat.eq_or_lt_of_le (show 0 ≤ a by omega) with hz | hp
      · constructor
        · intro _
          exact ⟨0, by omega⟩
        · intro _
          have : a = 0 := by omega
          subst this
          simp
      · have hland : (2 * a + 1) &&& (2 * a + 1 - 1) = 2 * a := by
          have h : 2 * a + 1 - 1 = 2 * a := by omega
          rw [h, land_odd_pred]
        rw [hland]
        constructor
        · intro h
          omega
        · intro ⟨k, hk⟩
          match k with
          | 0 => omega
          | k + 1 =>
            have : (2 : Nat) ^ (k + 1) = 2 * 2 ^ k := by ring
            omega

/-- `Int.land` on two nonnegative values is `Nat.land`. -/
theorem int_land_natCast (a b : Nat) : Int.land (a : Int) (b : Int) = ((a &&& b : Nat) : Int) := by
  simp [Int.land]

/-- Masking with `2^k - 1` is reduction mod `2^k`. -/
theorem land_two_pow_sub_one (a k : Nat) : a &&& (2 ^ k - 1) = a % 2 ^ k := by
  refine Nat.eq_of_testBit_eq fun i => ?_
  simp [Nat.testBit_land, Nat.testBit_mod_two_pow, Bool.and_comm]

/-- C `%` (truncating remainder) is zero exactly on multiples. -/
theorem tmod_eq_zero_iff_dvd (a b : Int) : Int.tmod a b = 0 ↔ b ∣ a :=
  ⟨Int.dvd_of_tmod_eq_zero, Int.tmod_eq_zero_of_dvd⟩

/-- `_IsPowerOf2` decides powers of two on positive inputs. -/
theorem isPowerOf2cpp_iff (n : Int) (hn : 1 ≤ n) :
    isPowerOf2cpp n = true ↔ ∃ k : Nat, n = 2 ^ k := by
  obtain ⟨m, rfl⟩ := Int.eq_ofNat_of_zero_le (le_trans zero_le_one hn)
  have hm : 1 ≤ m := by exact_mod_cast hn
  have hcast : (m : Int) - 1 = ((m - 1 : Nat) : Int) := by omega
  rw [isPowerOf2cpp, hcast, int_land_natCast]
  simp only [beq_iff_eq, Int.natCast_eq_zero]
  rw [land_pred_eq_zero_iff m hm]
  constructor
  · intro ⟨k, hk⟩
    exact ⟨k, by rw [hk]; push_cast; ring⟩
  · intro ⟨k, hk⟩
    refine ⟨k, ?_⟩
    have : ((m : Int)) = ((2 ^ k : Nat) : Int) := by rw [hk]; push_cast; ring
    exact_mod_cast this

/-- `_IsAligned` with mask `2^k - 1` decides divisibility by `2^k` on
nonnegative addresses. -/
theorem isAlignedCpp_pow2_iff (a : Int) (ha : 0 ≤ a) (k : Nat) :
    isAlignedCpp a ((2 : Int) ^ k - 1) = true ↔ ((2 : Int) ^ k ∣ a) := by
  obtain ⟨m, rfl⟩ := Int.eq_ofNat_of_zero_le ha
  have h1 : (1 : Nat) ≤ 2 ^ k := Nat.one_le_two_pow
  have hcast : ((2 : Int) ^ k - 1) = ((2 ^ k - 1 : Nat) : Int) := by
    push_cast [h1]
    ring
  rw [isAlignedCpp, hcast, int_land_natCast, land_two_pow_sub_one]
  simp only [beq_iff_eq, Int.natCast_eq_zero]
  rw [← Nat.dvd_iff_mod_eq_zero]
  constructor
  · intro h
    exact_mod_cast Int.natCast_dvd_natCast.2 h
  · intro h
    exact_mod_cast h
/-- Claim C8: over the defined parameter domain (positive block size and
alignments, nonnegative window address), construction fails exactly when
sectorAlign is not a power of two, or bufferAlign is not a power of two, or
bufferSize is not a multiple of blockSize, or the window address is not a
multiple of bufferAlign, or the larger of sectorAlign and blockSize is not a
multiple of the smaller; and on success the state starts empty, clean, with
cursor 0 and window at block 0 and the supplied window contents, with no
device operation possible (the constructor never touches the device). -/
theorem c8_construction_contract (addr bufferSize : Int) (flags : Nat)
    (blockSize sectorAlign bufferAlign : Int) (init : Mem)
    (ha : 0 ≤ addr) (_hbs : 1 ≤ blockSize) (hsa : 1 ≤ sectorAlign) (hba : 1 ≤ bufferAlign) :
    (construct addr bufferSize flags blockSize sectorAlign bufferAlign init = none ↔
      (¬ ∃ k : Nat, sectorAlign = 2 ^ k) ∨
      (¬ ∃ k : Nat, bufferAlign = 2 ^ k) ∨
      ¬ blockSize ∣ bufferSize ∨
      ¬ bufferAlign ∣ addr ∨
      ¬ min sectorAlign blockSize ∣ max sectorAlign blockSize) ∧
    (∀ cfg st, construct addr bufferSize flags blockSize sectorAlign bufferAlign init =
        some (cfg, st) →
      st.point = 0 ∧ st.bufferLoc = 0 ∧ st.dataSize = 0 ∧ st.isDirty = false ∧
      st.buffer = init ∧ cfg.bufferSize = bufferSize ∧ cfg.blockSize = blockSize ∧
      cfg.flags = flags) := by
  have hp2s := isPowerOf2cpp_iff sectorAlign hsa
  have hp2b := isPowerOf2cpp_iff bufferAlign hba
  have hmod := tmod_eq_zero_iff_dvd bufferSize blockSize
  by_cases c1 : isPowerOf2cpp sectorAlign = false
  · have hns : ¬ ∃ k : Nat, sectorAlign = 2 ^ k := by
      intro hex
      rw [hp2s.2 hex] at c1
      exact Bool.true_eq_false.mp c1
    have hcons : construct addr bufferSize flags blockSize sectorAlign bufferAlign init
        = none := by
      simp [construct, c1]
    rw [hcons]
    refine ⟨iff_of_true rfl (Or.inl hns), fun cfg st heq => by simp at heq⟩
  · have c1t : isPowerOf2cpp sectorAlign = true := by
      cases h : isPowerOf2cpp sectorAlign
      · exact absurd h c1
      · rfl
    have hs : ∃ k : Nat, sectorAlign = 2 ^ k := hp2s.1 c1t
    by_cases c2 : isPowerOf2cpp bufferAlign = false
    · have hnb : ¬ ∃ k : Nat, bufferAlign = 2 ^ k := by
        intro hex
        rw [hp2b.2 hex] at c2
        exact Bool.true_eq_false.mp c2
      have hcons : construct addr bufferSize flags blockSize sectorAlign bufferAlign init
          = none := by
        simp [construct, c1t, c2]
      rw [hcons]
      refine ⟨iff_of_true rfl (Or.inr (Or.inl hnb)), fun cfg st heq => by simp at heq⟩
    · have c2t : isPowerOf2cpp bufferAlign = true := by
        cases h : isPowerOf2cpp bufferAlign
        · exact absurd h c2
        · rfl
      obtain ⟨kb, hkb⟩ := hp2b.1 c2t
      have hbex : ∃ k : Nat, bufferAlign = 2 ^ k := ⟨kb, hkb⟩
      have halign := isAlignedCpp_pow2_iff addr ha kb
      by_cases c3 : Int.tmod bufferSize blockSize = 0
      · by_cases c4 : isAlignedCpp addr (bufferAlign - 1) = false
        · have hnal : ¬ bufferAlign ∣ addr := by
            intro hdvd
            rw [hkb] at c4 hdvd
            rw [halign.2 hdvd] at c4
            exact Bool.true_eq_false.mp c4
          have hcons : construct addr bufferSize flags blockSize sectorAlign bufferAlign init
              = none := by
            simp [construct, c1t, c2t, c3, c4]
          rw [hcons]
          refine ⟨iff_of_true rfl (Or.inr (Or.inr (Or.inr (Or.inl hnal)))),
            fun cfg st heq => by simp at heq⟩
        · have c4t : isAlignedCpp addr (bufferAlign - 1) = true := by
            cases h : isAlignedCpp addr (bufferAlign - 1)
            · exact absurd h c4
            · rfl
          have hal : bufferAlign ∣ addr := by
            rw [hkb]
            exact halign.1 (by rw [hkb] at c4t; exact c4t)
          by_cases c5 : blockSize < sectorAlign
          · have hmin : min sectorAlign blockSize = blockSize := by omega
            have hmax : max sectorAlign blockSize = sectorAlign := by omega
            by_cases c6 : isMultipleOfCpp sectorAlign blockSize = false
            · have hnm : ¬ min sectorAlign blockSize ∣ max sectorAlign blockSize := by
                rw [hmin, hmax]
                intro hdvd
                rw [isMultipleOfCpp, (tmod_eq_zero_iff_dvd sectorAlign blockSize).2 hdvd] at c6
                simp at c6
              have hcons : construct addr bufferSize flags blockSize sectorAlign
                  bufferAlign init = none := by
                simp [construct, c1t, c2t, c3, c4t, c5, c6]
              rw [hcons]
              refine ⟨iff_of_true rfl (Or.inr (Or.inr (Or.inr (Or.inr hnm)))),
                fun cfg st heq => by simp at heq⟩
            · have c6t : isMultipleOfCpp sectorAlign blockSize = true := by
                cases h : isMultipleOfCpp sectorAlign blockSize
                · exact absurd h c6
                · rfl
              have hm5 : min sectorAlign blockSize ∣ max sectorAlign blockSize := by
                rw [hmin, hmax]
                exact (tmod_eq_zero_iff_dvd sectorAlign blockSize).1
                  (by simpa [isMultipleOfCpp] using c6t)
              have hcons : construct addr bufferSize flags blockSize sectorAlign
                  bufferAlign init = some
                  ({ bufferSize := bufferSize
                     bufferSizeInBlocks := Int.tdiv bufferSize blockSize
                     blockSize := blockSize
                     sectorAlignMask := sectorAlign - 1
                     bufferAlignMask := bufferAlign - 1
                     flags := flags },
                   { point := 0, bufferLoc := 0, dataSize := 0, isDirty := false
                     buffer := init }) := by
                simp [construct, c1t, c2t, c3, c4t, c5, c6t]
              rw [hcons]
              constructor
              · refine iff_of_false (by simp) ?_
                rintro (h | h | h | h | h)
                exacts [h hs, h hbex, h (hmod.1 c3), h hal, h hm5]
              · intro cfg st heq
                simp only [Option.some.injEq, Prod.mk.injEq] at heq
                obtain ⟨h1, h2⟩ := heq
                subst h1
                subst h2
                simp
          · have hmin : min sectorAlign blockSize = sectorAlign := by omega
            have hmax : max sectorAlign blockSize = blockSize := by omega
            by_cases c6 : isMultipleOfCpp blockSize sectorAlign = false
            · have hnm : ¬ min sectorAlign blockSize ∣ max sectorAlign blockSize := by
                rw [hmin, hmax]
                intro hdvd
                rw [isMultipleOfCpp, (tmod_eq_zero_iff_dvd blockSize sectorAlign).2 hdvd] at c6
                simp at c6
              have hcons : construct addr bufferSize flags blockSize sectorAlign
                  bufferAlign init = none := by
                simp [construct, c1t, c2t, c3, c4t, c5, c6]
              rw [hcons]
              refine ⟨iff_of_true rfl (Or.inr (Or.inr (Or.inr (Or.inr hnm)))),
                fun cfg st heq => by simp at heq⟩
            · have c6t : isMultipleOfCpp blockSize sectorAlign = true := by
                cases h : isMultipleOfCpp blockSize sectorAlign
                · exact absurd h c6
                · rfl
              have hm5 : min sectorAlign blockSize ∣ max sectorAlign blockSize := by
                rw [hmin, hmax]
                exact (tmod_eq_zero_iff_dvd blockSize sectorAlign).1
                  (by simpa [isMultipleOfCpp] using c6t)
              have hcons : construct addr bufferSize flags blockSize sectorAlign
                  bufferAlign init = some
                  ({ bufferSize := bufferSize
                     bufferSizeInBlocks := Int.tdiv bufferSize blockSize
                     blockSize := blockSize
                     sectorAlignMask := sectorAlign - 1
                     bufferAlignMask := bufferAlign - 1
                     flags := flags },
                   { point := 0, bufferLoc := 0, dataSize := 0, isDirty := false
                     buffer := init }) := by
                simp [construct, c1t, c2t, c3, c4t, c5, c6t]
              rw [hcons]
              constructor
              · refine iff_of_false (by simp) ?_
                rintro (h | h | h | h | h)
                exacts [h hs, h hbex, h (hmod.1 c3), h hal, h hm5]
              · intro cfg st heq
                simp only [Option.some.injEq, Prod.mk.injEq] at heq
                obtain ⟨h1, h2⟩ := heq
                subst h1
                subst h2
                simp
      · have hnd : ¬ blockSize ∣ bufferSize := fun hdvd => c3 (hmod.2 hdvd)
        have hcons : construct addr bufferSize flags blockSize sectorAlign bufferAlign init
            = none := by
          simp [construct, c1t, c2t, c3]
        rw [hcons]
        refine ⟨iff_of_true rfl (Or.inr (Or.inr (Or.inl hnd))),
          fun cfg st heq => by simp at heq⟩

/-- Witness for C8: 4092 is not a multiple of 512, so that construction
fails; and the successful construction behind `cfgTwo` starts empty, clean,
cursor 0, window at block 0. -/
theorem c8_construction_contract_witness :
    construct 0 4092 0 512 512 1 zeroMem = none ∧
    emptySt.point = 0 ∧ emptySt.bufferLoc = 0 ∧ emptySt.dataSize = 0 ∧
    emptySt.isDirty = false :=
  ⟨(c8_construction_contract 0 4092 0 512 512 1 zeroMem (by decide) (by decide)
      (by decide) (by decide)).1.mpr (Or.inr (Or.inr (Or.inl (by omega)))),
   ((c8_construction_contract 0 2 0 1 1 1 zeroMem (by decide) (by decide)
      (by decide) (by decide)).2 cfgTwo emptySt rfl).1,
   ((c8_construction_contract 0 2 0 1 1 1 zeroMem (by decide) (by decide)
      (by decide) (by decide)).2 cfgTwo emptySt rfl).2.1,
   ((c8_construction_contract 0 2 0 1 1 1 zeroMem (by decide) (by decide)
      (by decide) (by decide)).2 cfgTwo emptySt rfl).2.2.1,
   ((c8_construction_contract 0 2 0 1 1 1 zeroMem (by decide) (by decide)
      (by decide) (by decide)).2 cfgTwo emptySt rfl).2.2.2.1⟩

/-- A byte inside the copied range reads from the source. -/
theorem memcpy_inside (dst : Mem) (o : Int) (src : Mem) (so n i : Int)
    (h1 : o ≤ i) (h2 : i < o + n) : memcpy dst o src so n i = src (so + (i - o)) := by
  simp only [memcpy]
  rw [if_pos ⟨h1, h2⟩]

/-- A byte outside the copied range is untouched. -/
theorem memcpy_outside (dst : Mem) (o : Int) (src : Mem) (so n i : Int)
    (h : i < o ∨ o + n ≤ i) : memcpy dst o src so n i = dst i := by
  simp only [memcpy]
  rw [if_neg (by omega)]

/-- `Flush` on a clean window does nothing. -/
theorem flushOp_clean {δ : Type} (dm : DevModel δ) (s : St) (d : δ)
    (h : s.isDirty = false) : flushOp dm s d = (s, d) := by
  simp [flushOp, h]

/-- `Flush` of a dirty window over the fault-free device, when the data fits
before the end of the device: seek confirmed, full write, dirty cleared. -/
theorem flushOp_flat_full (s : St) (d : FlatDev)
    (h1 : s.isDirty = true) (h2 : 0 < s.dataSize)
    (h3 : s.dataSize ≤ d.capacity - s.bufferLoc) :
    flushOp flatDM s d =
      ({ s with isDirty := false },
       { blockSize := d.blockSize, capacity := d.capacity
         pos := s.bufferLoc + s.dataSize
         contents := memcpy d.contents (s.bufferLoc * d.blockSize) s.buffer 0
           (s.dataSize * d.blockSize) }) := by
  have hk : max 0 (min s.dataSize (d.capacity - s.bufferLoc)) = s.dataSize := by omega
  simp [flushOp, h1, h2, flatDM, flatSeek, flatWrite, hk]

/-- `Fill` over the fault-free device: the seek is confirmed and the read
transfers as many whole blocks as remain up to a full window. -/
theorem fillOp_flat (cfg : Cfg) (s : St) (d : FlatDev)
    (hff : (cfg.flags &&& CF_NO_FILLS == 0) = true) :
    fillOp cfg flatDM s d =
      ({ point := 0, bufferLoc := s.bufferLoc
         dataSize := max 0 (min cfg.bufferSizeInBlocks (d.capacity - s.bufferLoc))
         isDirty := s.isDirty
         buffer := memcpy s.buffer 0 (fun j => d.contents (s.bufferLoc * d.blockSize + j)) 0
           (max 0 (min cfg.bufferSizeInBlocks (d.capacity - s.bufferLoc)) * cfg.blockSize) },
       { blockSize := d.blockSize, capacity := d.capacity
         pos := s.bufferLoc + max 0 (min cfg.bufferSizeInBlocks (d.capacity - s.bufferLoc))
         contents := d.contents }) := by
  simp [fillOp, hff, flatDM, flatSeek, flatRead]

/-- Constants produced by `BufferedProxy(buf, 4096, h, obj, 0, 512, 512, 1)`:
the configuration of the spec's round-trip scenario (claim C2). -/
def cfgC2 : Cfg :=
  { bufferSize := 4096, bufferSizeInBlocks := 8, blockSize := 512
    sectorAlignMask := 511, bufferAlignMask := 0, flags := 0 }

/-- C2 write, stage 1: the first 4096 bytes land in the empty window. -/
theorem c2_wA (b src : Mem) :
    writeStep1 cfgC2 { point := 0, bufferLoc := 0, dataSize := 0, isDirty := false, buffer := b }
      src 0 10000 =
      ({ point := 4096, bufferLoc := 0, dataSize := 8, isDirty := true
         buffer := memcpy b 0 src 0 4096 }, 4096, 4096, 5904) := by
  simp [writeStep1, copyIn, remainingWriteSpace, cfgC2]
  decide

/-- C2 write, stage 2: flush of the full window (blocks 0-7) followed by a
direct 8-block device write of bytes 4096..8191. -/
theorem c2_wB (cap : Int) (hcap : 20 ≤ cap) (g src b1 : Mem) :
    writeStep2 cfgC2 flatDM { blockSize := 512, capacity := cap, pos := 0, contents := g } src
      ({ point := 4096, bufferLoc := 0, dataSize := 8, isDirty := true, buffer := b1 },
       4096, 4096, 5904) =
      ({ point := 0, bufferLoc := 16, dataSize := 0, isDirty := false, buffer := b1 },
       { blockSize := 512, capacity := cap, pos := 16
         contents := memcpy (memcpy g 0 b1 0 4096) 4096 (fun j => src (4096 + j)) 0 4096 },
       8192, 8192, 1808) := by
  have hflush := flushOp_flat_full
    { point := 4096, bufferLoc := 0, dataSize := 8, isDirty := true, buffer := b1 }
    { blockSize := 512, capacity := cap, pos := 0, contents := g }
    rfl (by norm_num) (by simp; omega)
  have ht : ((5904:Int) - Int.tmod 5904 4096).tdiv 512 = 8 := by decide
  have hw : max (0:Int) (min 8 (cap - 8)) = 8 := by omega
  simp only [writeStep2, cfgC2, hflush]
  norm_num
  rw [if_pos (by decide)]
  simp [flatDM, flatWrite, highestMultiple, ht, hw]

/-- Unfolding equation: the write tail loop out of fuel. -/
theorem writeTailLoop_zero {δ : Type} (cfg : Cfg) (dm : DevModel δ) (mem : Mem)
    (s : St) (d : δ) (srcAddr total n : Int) :
    writeTailLoop cfg dm mem 0 s d srcAddr total n = (s, d, srcAddr, total, n) := rfl

/-- Unfolding equation: one iteration of the write tail loop. -/
theorem writeTailLoop_succ {δ : Type} (cfg : Cfg) (dm : DevModel δ) (mem : Mem)
    (fuel : Nat) (s : St) (d : δ) (srcAddr total n : Int) :
    writeTailLoop cfg dm mem (fuel + 1) s d srcAddr total n =
      (if 0 < n then
        let f := flushOp dm s d
        let fl :=
          if n < cfg.bufferSize ∧ cfg.flags &&& CF_NO_FILLS == 0 then
            fillOp cfg dm f.1 f.2
          else (f.1, f.2)
        let b := min n (remainingWriteSpace cfg fl.1)
        if b ≤ 0 then (fl.1, fl.2, srcAddr, total, n)
        else
          let c := copyIn cfg fl.1 mem srcAddr b
          let next :=
            if cfg.bufferSize ≤ c.1.point then flushOp dm c.1 fl.2
            else (c.1, fl.2)
          writeTailLoop cfg dm mem fuel next.1 next.2 c.2 (total + b) (n - b)
      else (s, d, srcAddr, total, n)) := rfl

/-- C2 write, stage 3: fill at block 16 (short fill near the end of the
device), then the final 1808 bytes land in the window. -/
theorem c2_wC (cap : Int) (hcap : 20 ≤ cap) (g2 src b1 : Mem) :
    writeStep3 cfgC2 flatDM src
      ({ point := 0, bufferLoc := 16, dataSize := 0, isDirty := false, buffer := b1 },
       { blockSize := 512, capacity := cap, pos := 16, contents := g2 },
       8192, 8192, 1808) =
      (10000,
       { point := 1808, bufferLoc := 16, dataSize := min 8 (cap - 16), isDirty := true
         buffer := memcpy
           (memcpy b1 0 (fun j => g2 (16 * 512 + j)) 0 (min 8 (cap - 16) * 512))
           0 src 8192 1808 },
       { blockSize := 512, capacity := cap, pos := 16 + min 8 (cap - 16)
         contents := g2 }) := by
  have e2 : max (0:Int) (min 8 (cap - 16)) = min 8 (cap - 16) := by omega
  have e4 : ¬ (min (8:Int) (cap - 16) * 512 < 1808) := by omega
  simp only [writeStep3]
  have hfuel : Int.toNat 1808 + 1 = 1807 + 1 + 1 := by decide
  rw [hfuel, writeTailLoop_succ]
  simp [writeTailLoop_succ, flushOp_clean, fillOp_flat, copyIn, remainingWriteSpace,
    cfgC2, CF_NO_FILLS, e2, e4]

/-- Bitwise difference from zero is zero. -/
theorem ldiff_zero (m : Nat) : Nat.ldiff 0 m = 0 := by
  refine Nat.eq_of_testBit_eq fun i => ?_
  simp [Nat.testBit_ldiff]

/-- The sector-aligned floor of location 0 with mask 511 is 0. -/
theorem hmp2_zero_511 : highestMultiplePowerOf2 0 511 = 0 := by
  rw [show highestMultiplePowerOf2 0 511 = ((Nat.ldiff 0 511 : Nat) : Int) from rfl,
    ldiff_zero 511]
  rfl

/-- C2: the full 10000-byte write over the fault-free device with at least
20 blocks of capacity: returns 10000 and leaves the tail buffered dirty. -/
theorem c2_write (cap : Int) (hcap : 20 ≤ cap) (g src b : Mem) :
    writeOp cfgC2 flatDM
      { point := 0, bufferLoc := 0, dataSize := 0, isDirty := false, buffer := b }
      { blockSize := 512, capacity := cap, pos := 0, contents := g } src 0 10000 =
      (10000,
       { point := 1808, bufferLoc := 16, dataSize := min 8 (cap - 16), isDirty := true
         buffer := memcpy
           (memcpy (memcpy b 0 src 0 4096) 0
             (fun j => memcpy (memcpy g 0 (memcpy b 0 src 0 4096) 0 4096) 4096
               (fun j2 => src (4096 + j2)) 0 4096 (16 * 512 + j)) 0
             (min 8 (cap - 16) * 512))
           0 src 8192 1808 },
       { blockSize := 512, capacity := cap, pos := 16 + min 8 (cap - 16)
         contents := memcpy (memcpy g 0 (memcpy b 0 src 0 4096) 0 4096) 4096
           (fun j2 => src (4096 + j2)) 0 4096 }) := by
  rw [writeOp, c2_wA b src, c2_wB cap hcap g src (memcpy b 0 src 0 4096),
    c2_wC cap hcap
      (memcpy (memcpy g 0 (memcpy b 0 src 0 4096) 0 4096) 4096
        (fun j2 => src (4096 + j2)) 0 4096)
      src (memcpy b 0 src 0 4096)]

/-- C2: `Seek(0)` after the write: flushes the dirty tail (blocks 16..),
seeks the device to block 0 and fills the window with blocks 0-7. -/
theorem c2_seek (cap : Int) (hcap : 20 ≤ cap) (g2 b3 : Mem) :
    seekOp cfgC2 flatDM
      { point := 1808, bufferLoc := 16, dataSize := min 8 (cap - 16), isDirty := true
        buffer := b3 }
      { blockSize := 512, capacity := cap, pos := 16 + min 8 (cap - 16), contents := g2 }
      0 =
      (0,
       { point := 0, bufferLoc := 0, dataSize := 8, isDirty := false
         buffer := memcpy b3 0
           (fun j => memcpy g2 (16 * 512) b3 0 (min 8 (cap - 16) * 512) j) 0 (8 * 512) },
       { blockSize := 512, capacity := cap, pos := 8
         contents := memcpy g2 (16 * 512) b3 0 (min 8 (cap - 16) * 512) }) := by
  have hniw : ¬((16:Int) * 512 ≤ 0 ∧ (0:Int) < (16 + min 8 (cap - 16)) * 512) := by
    intro h
    omega
  have hflush := flushOp_flat_full
    { point := 1808, bufferLoc := 16, dataSize := min 8 (cap - 16), isDirty := true
      buffer := b3 }
    { blockSize := 512, capacity := cap, pos := 16 + min 8 (cap - 16), contents := g2 }
    rfl (by show (0:Int) < min 8 (cap - 16); omega)
    (by show min (8:Int) (cap - 16) ≤ cap - (16:Int); omega)
  have e0 : max (0:Int) (min 8 cap) = 8 := by omega
  simp only [seekOp, cfgC2]
  rw [if_neg hniw]
  simp only [hflush, hmp2_zero_511]
  have hsk : flatDM.seek = flatSeek := rfl
  simp only [hsk, flatSeek, show Int.tdiv 0 512 = 0 from by decide]
  simp [fillOp_flat, e0]

/-- C2 read, stage 1: the first 4096 bytes come from the freshly filled
window. -/
theorem c2_rA (b4 m0 : Mem) :
    readStep1 cfgC2 { point := 0, bufferLoc := 0, dataSize := 8, isDirty := false, buffer := b4 }
      m0 0 10000 =
      ({ point := 4096, bufferLoc := 0, dataSize := 8, isDirty := false, buffer := b4 },
       memcpy m0 0 b4 0 4096, 4096, 4096, 5904) := by
  simp [readStep1, copyOut, remainingReadAmount, cfgC2]

/-- C2 read, stage 2: a direct 8-block device read of bytes 4096..8191. -/
theorem c2_rB (cap : Int) (hcap : 20 ≤ cap) (g3 b4 mem1 : Mem) :
    readStep2 cfgC2 flatDM { blockSize := 512, capacity := cap, pos := 8, contents := g3 }
      ({ point := 4096, bufferLoc := 0, dataSize := 8, isDirty := false, buffer := b4 },
       mem1, 4096, 4096, 5904) =
      ({ point := 0, bufferLoc := 16, dataSize := 0, isDirty := false, buffer := b4 },
       { blockSize := 512, capacity := cap, pos := 16, contents := g3 },
       memcpy mem1 4096 (fun j => g3 (8 * 512 + j)) 0 4096, 8192, 8192, 1808) := by
  have ht : ((5904:Int) - Int.tmod 5904 4096).tdiv 512 = 8 := by decide
  have hw : max (0:Int) (min 8 (cap - 8)) = 8 := by omega
  have hrd : flatDM.read = flatRead := rfl
  simp only [readStep2, cfgC2]
  norm_num
  rw [if_pos (by decide)]
  rw [flushOp_clean flatDM
    { point := 4096, bufferLoc := 0, dataSize := 8, isDirty := false, buffer := b4 }
    { blockSize := 512, capacity := cap, pos := 8, contents := g3 } rfl]
  simp only [highestMultiple, ht, hrd, flatRead]
  simp [hw]

/-- C2 read, stage 3: fill at block 16 and serve the final 1808 bytes. -/
theorem c2_rC (cap : Int) (hcap : 20 ≤ cap) (g3 b4 mem2 : Mem) :
    readStep3 cfgC2 flatDM
      ({ point := 0, bufferLoc := 16, dataSize := 0, isDirty := false, buffer := b4 },
       { blockSize := 512, capacity := cap, pos := 16, contents := g3 },
       mem2, 8192, 8192, 1808) =
      (10000,
       { point := 1808, bufferLoc := 16, dataSize := min 8 (cap - 16), isDirty := false
         buffer := memcpy b4 0 (fun j => g3 (16 * 512 + j)) 0 (min 8 (cap - 16) * 512) },
       { blockSize := 512, capacity := cap, pos := 16 + min 8 (cap - 16), contents := g3 },
       memcpy mem2 8192
         (memcpy b4 0 (fun j => g3 (16 * 512 + j)) 0 (min 8 (cap - 16) * 512)) 0 1808) := by
  have e2 : max (0:Int) (min 8 (cap - 16)) = min 8 (cap - 16) := by omega
  have e5 : min (1808:Int) (min 8 (cap - 16) * 512) = 1808 := by omega
  have h16 : (16:Int) < cap := by omega
  simp only [readStep3]
  rw [if_pos (by norm_num : (0:Int) < 1808)]
  rw [flushOp_clean flatDM
    { point := 0, bufferLoc := 16, dataSize := 0, isDirty := false, buffer := b4 }
    { blockSize := 512, capacity := cap, pos := 16, contents := g3 } rfl]
  simp [fillOp_flat, copyOut, remainingReadAmount, cfgC2, e2, e5, h16]

/-- C2 data equality: every byte the read sequence deposits in client memory
equals the corresponding byte the client originally wrote. -/
theorem c2_data (cap : Int) (hcap : 20 ≤ cap) (g src b m0 : Mem) (i : Int)
    (h0 : 0 ≤ i) (h1 : i < 10000) :
    memcpy
      (memcpy
        (memcpy m0 0
          (memcpy
            (memcpy
              (memcpy (memcpy b 0 src 0 4096) 0
                (fun j => memcpy (memcpy g 0 (memcpy b 0 src 0 4096) 0 4096) 4096
                  (fun j2 => src (4096 + j2)) 0 4096 (16 * 512 + j)) 0
                (min 8 (cap - 16) * 512))
              0 src 8192 1808)
            0
            (fun j => memcpy
              (memcpy (memcpy g 0 (memcpy b 0 src 0 4096) 0 4096) 4096
                (fun j2 => src (4096 + j2)) 0 4096)
              (16 * 512)
              (memcpy
                (memcpy (memcpy b 0 src 0 4096) 0
                  (fun j => memcpy (memcpy g 0 (memcpy b 0 src 0 4096) 0 4096) 4096
                    (fun j2 => src (4096 + j2)) 0 4096 (16 * 512 + j)) 0
                  (min 8 (cap - 16) * 512))
                0 src 8192 1808)
              0 (min 8 (cap - 16) * 512) j)
            0 (8 * 512))
          0 4096)
        4096
        (fun j => memcpy
          (memcpy (memcpy g 0 (memcpy b 0 src 0 4096) 0 4096) 4096
            (fun j2 => src (4096 + j2)) 0 4096)
          (16 * 512)
          (memcpy
            (memcpy (memcpy b 0 src 0 4096) 0
              (fun j => memcpy (memcpy g 0 (memcpy b 0 src 0 4096) 0 4096) 4096
                (fun j2 => src (4096 + j2)) 0 4096 (16 * 512 + j)) 0
              (min 8 (cap - 16) * 512))
            0 src 8192 1808)
          0 (min 8 (cap - 16) * 512) (8 * 512 + j))
        0 4096)
      8192
      (memcpy
        (memcpy
          (memcpy
            (memcpy (memcpy b 0 src 0 4096) 0
              (fun j => memcpy (memcpy g 0 (memcpy b 0 src 0 4096) 0 4096) 4096
                (fun j2 => src (4096 + j2)) 0 4096 (16 * 512 + j)) 0
              (min 8 (cap - 16) * 512))
            0 src 8192 1808)
          0
          (fun j => memcpy
            (memcpy (memcpy g 0 (memcpy b 0 src 0 4096) 0 4096) 4096
              (fun j2 => src (4096 + j2)) 0 4096)
            (16 * 512)
            (memcpy
              (memcpy (memcpy b 0 src 0 4096) 0
                (fun j => memcpy (memcpy g 0 (memcpy b 0 src 0 4096) 0 4096) 4096
                  (fun j2 => src (4096 + j2)) 0 4096 (16 * 512 + j)) 0
                (min 8 (cap - 16) * 512))
              0 src 8192 1808)
            0 (min 8 (cap - 16) * 512) j)
          0 (8 * 512))
        0
        (fun j => memcpy
          (memcpy (memcpy g 0 (memcpy b 0 src 0 4096) 0 4096) 4096
            (fun j2 => src (4096 + j2)) 0 4096)
          (16 * 512)
          (memcpy
            (memcpy (memcpy b 0 src 0 4096) 0
              (fun j => memcpy (memcpy g 0 (memcpy b 0 src 0 4096) 0 4096) 4096
                (fun j2 => src (4096 + j2)) 0 4096 (16 * 512 + j)) 0
              (min 8 (cap - 16) * 512))
            0 src 8192 1808)
          0 (min 8 (cap - 16) * 512) (16 * 512 + j))
        0 (min 8 (cap - 16) * 512))
      0 1808 i = src i := by
  have hK1 : (2048:Int) ≤ min 8 (cap - 16) * 512 := by omega
  have hK2 : min (8:Int) (cap - 16) * 512 ≤ 4096 := by omega
  have hb1 : ∀ j : Int, 0 ≤ j → j < 4096 →
      memcpy b 0 src 0 4096 j = src j := by
    intro j hj0 hj1
    rw [memcpy_inside _ _ _ _ _ _ (by omega) (by omega),
      show (0:Int) + (j - 0) = j from by ring]
  have hg2 : ∀ j : Int, 0 ≤ j → j < 8192 →
      memcpy (memcpy g 0 (memcpy b 0 src 0 4096) 0 4096) 4096
        (fun j2 => src (4096 + j2)) 0 4096 j = src j := by
    intro j hj0 hj1
    by_cases hc : j < 4096
    · rw [memcpy_outside _ _ _ _ _ _ (by omega),
        memcpy_inside _ _ _ _ _ _ (by omega) (by omega),
        show (0:Int) + (j - 0) = j from by ring]
      exact hb1 j hj0 hc
    · rw [memcpy_inside _ _ _ _ _ _ (by omega) (by omega)]
      show src (4096 + (0 + (j - 4096))) = src j
      rw [show (4096:Int) + (0 + (j - 4096)) = j from by ring]
  have hb3 : ∀ j : Int, 0 ≤ j → j < 1808 →
      memcpy
        (memcpy (memcpy b 0 src 0 4096) 0
          (fun j => memcpy (memcpy g 0 (memcpy b 0 src 0 4096) 0 4096) 4096
            (fun j2 => src (4096 + j2)) 0 4096 (16 * 512 + j)) 0
          (min 8 (cap - 16) * 512))
        0 src 8192 1808 j = src (8192 + j) := by
    intro j hj0 hj1
    rw [memcpy_inside _ _ _ _ _ _ (by omega) (by omega),
      show (8192:Int) + (j - 0) = 8192 + j from by ring]
  have hg3 : ∀ j : Int, 0 ≤ j → j < 10000 →
      memcpy
        (memcpy (memcpy g 0 (memcpy b 0 src 0 4096) 0 4096) 4096
          (fun j2 => src (4096 + j2)) 0 4096)
        (16 * 512)
        (memcpy
          (memcpy (memcpy b 0 src 0 4096) 0
            (fun j => memcpy (memcpy g 0 (memcpy b 0 src 0 4096) 0 4096) 4096
              (fun j2 => src (4096 + j2)) 0 4096 (16 * 512 + j)) 0
            (min 8 (cap - 16) * 512))
          0 src 8192 1808)
        0 (min 8 (cap - 16) * 512) j = src j := by
    intro j hj0 hj1
    by_cases hc : j < 8192
    · rw [memcpy_outside _ _ _ _ _ _ (by omega)]
      exact hg2 j hj0 hc
    · rw [memcpy_inside _ _ _ _ _ _ (by omega) (by omega),
        show (0:Int) + (j - 16 * 512) = j - 8192 from by ring]
      rw [hb3 (j - 8192) (by omega) (by omega)]
      rw [show (8192:Int) + (j - 8192) = j from by ring]
  have hb4 : ∀ j : Int, 0 ≤ j → j < 4096 →
      memcpy
        (memcpy
          (memcpy (memcpy b 0 src 0 4096) 0
            (fun j => memcpy (memcpy g 0 (memcpy b 0 src 0 4096) 0 4096) 4096
              (fun j2 => src (4096 + j2)) 0 4096 (16 * 512 + j)) 0
            (min 8 (cap - 16) * 512))
          0 src 8192 1808)
        0
        (fun j => memcpy
          (memcpy (memcpy g 0 (memcpy b 0 src 0 4096) 0 4096) 4096
            (fun j2 => src (4096 + j2)) 0 4096)
          (16 * 512)
          (memcpy
            (memcpy (memcpy b 0 src 0 4096) 0
              (fun j => memcpy (memcpy g 0 (memcpy b 0 src 0 4096) 0 4096) 4096
                (fun j2 => src (4096 + j2)) 0 4096 (16 * 512 + j)) 0
              (min 8 (cap - 16) * 512))
            0 src 8192 1808)
          0 (min 8 (cap - 16) * 512) j)
        0 (8 * 512) j = src j := by
    intro j hj0 hj1
    rw [memcpy_inside _ _ _ _ _ _ (by omega) (by omega)]
    show memcpy _ (16 * 512) _ 0 (min 8 (cap - 16) * 512) (0 + (j - 0)) = src j
    rw [show (0:Int) + (j - 0) = j from by ring]
    exact hg3 j hj0 (by omega)
  have hb5 : ∀ j : Int, 0 ≤ j → j < 1808 →
      memcpy
        (memcpy
          (memcpy
            (memcpy (memcpy b 0 src 0 4096) 0
              (fun j => memcpy (memcpy g 0 (memcpy b 0 src 0 4096) 0 4096) 4096
                (fun j2 => src (4096 + j2)) 0 4096 (16 * 512 + j)) 0
              (min 8 (cap - 16) * 512))
            0 src 8192 1808)
          0
          (fun j => memcpy
            (memcpy (memcpy g 0 (memcpy b 0 src 0 4096) 0 4096) 4096
              (fun j2 => src (4096 + j2)) 0 4096)
            (16 * 512)
            (memcpy
              (memcpy (memcpy b 0 src 0 4096) 0
                (fun j => memcpy (memcpy g 0 (memcpy b 0 src 0 4096) 0 4096) 4096
                  (fun j2 => src (4096 + j2)) 0 4096 (16 * 512 + j)) 0
                (min 8 (cap - 16) * 512))
              0 src 8192 1808)
            0 (min 8 (cap - 16) * 512) j)
          0 (8 * 512))
        0
        (fun j => memcpy
          (memcpy (memcpy g 0 (memcpy b 0 src 0 4096) 0 4096) 4096
            (fun j2 => src (4096 + j2)) 0 4096)
          (16 * 512)
          (memcpy
            (memcpy (memcpy b 0 src 0 4096) 0
              (fun j => memcpy (memcpy g 0 (memcpy b 0 src 0 4096) 0 4096) 4096
                (fun j2 => src (4096 + j2)) 0 4096 (16 * 512 + j)) 0
              (min 8 (cap - 16) * 512))
            0 src 8192 1808)
          0 (min 8 (cap - 16) * 512) (16 * 512 + j))
        0 (min 8 (cap - 16) * 512) j = src (8192 + j) := by
    intro j hj0 hj1
    rw [memcpy_inside _ _ _ _ _ _ (by omega) (by omega)]
    show memcpy _ (16 * 512) _ 0 (min 8 (cap - 16) * 512) (16 * 512 + (0 + (j - 0))) = _
    rw [show (16:Int) * 512 + (0 + (j - 0)) = 8192 + j from by ring]
    exact hg3 (8192 + j) (by omega) (by omega)
  by_cases hc1 : i < 4096
  · rw [memcpy_outside _ _ _ _ _ _ (by omega),
      memcpy_outside _ _ _ _ _ _ (by omega),
      memcpy_inside _ _ _ _ _ _ (by omega) (by omega),
      show (0:Int) + (i - 0) = i from by ring]
    exact hb4 i h0 hc1
  · by_cases hc2 : i < 8192
    · rw [memcpy_outside _ _ _ _ _ _ (by omega),
        memcpy_inside _ _ _ _ _ _ (by omega) (by omega)]
      show memcpy _ (16 * 512) _ 0 (min 8 (cap - 16) * 512) (8 * 512 + (0 + (i - 4096))) = _
      rw [show (8:Int) * 512 + (0 + (i - 4096)) = i from by ring]
      exact hg3 i h0 (by omega)
    · rw [memcpy_inside _ _ _ _ _ _ (by omega) (by omega),
        show (0:Int) + (i - 8192) = i - 8192 from by ring]
      rw [hb5 (i - 8192) (by omega) (by omega)]
      rw [show (8192:Int) + (i - 8192) = i from by ring]

/-- Claim C2: on an engine constructed with bufferSize 4096, blockSize 512,
sectorAlign 512, bufferAlign 1, over a fault-free device with at least 20
blocks (at least 10000 bytes): writing 10000 bytes at location 0, seeking to
0, then reading 10000 bytes returns write count 10000, seek result 0, read
count exactly 10000, and the bytes read equal the bytes written. -/
theorem c2_scenario_round_trip (cap : Int) (hcap : 20 ≤ cap) (g src b m0 : Mem) :
    construct 0 4096 0 512 512 1 b =
      some (cfgC2,
        { point := 0, bufferLoc := 0, dataSize := 0, isDirty := false, buffer := b }) ∧
    (writeOp cfgC2 flatDM
      { point := 0, bufferLoc := 0, dataSize := 0, isDirty := false, buffer := b }
      { blockSize := 512, capacity := cap, pos := 0, contents := g } src 0 10000).1
      = 10000 ∧
    (seekOp cfgC2 flatDM
      (writeOp cfgC2 flatDM
        { point := 0, bufferLoc := 0, dataSize := 0, isDirty := false, buffer := b }
        { blockSize := 512, capacity := cap, pos := 0, contents := g } src 0 10000).2.1
      (writeOp cfgC2 flatDM
        { point := 0, bufferLoc := 0, dataSize := 0, isDirty := false, buffer := b }
        { blockSize := 512, capacity := cap, pos := 0, contents := g } src 0 10000).2.2
      0).1 = 0 ∧
    (readOp cfgC2 flatDM
      (seekOp cfgC2 flatDM
        (writeOp cfgC2 flatDM
          { point := 0, bufferLoc := 0, dataSize := 0, isDirty := false, buffer := b }
          { blockSize := 512, capacity := cap, pos := 0, contents := g } src 0 10000).2.1
        (writeOp cfgC2 flatDM
          { point := 0, bufferLoc := 0, dataSize := 0, isDirty := false, buffer := b }
          { blockSize := 512, capacity := cap, pos := 0, contents := g } src 0 10000).2.2
        0).2.1
      (seekOp cfgC2 flatDM
        (writeOp cfgC2 flatDM
          { point := 0, bufferLoc := 0, dataSize := 0, isDirty := false, buffer := b }
          { blockSize := 512, capacity := cap, pos := 0, contents := g } src 0 10000).2.1
        (writeOp cfgC2 flatDM
          { point := 0, bufferLoc := 0, dataSize := 0, isDirty := false, buffer := b }
          { blockSize := 512, capacity := cap, pos := 0, contents := g } src 0 10000).2.2
        0).2.2
      m0 0 10000).1 = 10000 ∧
    ∀ i : Nat, i < 10000 →
      (readOp cfgC2 flatDM
        (seekOp cfgC2 flatDM
          (writeOp cfgC2 flatDM
            { point := 0, bufferLoc := 0, dataSize := 0, isDirty := false, buffer := b }
            { blockSize := 512, capacity := cap, pos := 0, contents := g } src 0 10000).2.1
          (writeOp cfgC2 flatDM
            { point := 0, bufferLoc := 0, dataSize := 0, isDirty := false, buffer := b }
            { blockSize := 512, capacity := cap, pos := 0, contents := g } src 0 10000).2.2
          0).2.1
        (seekOp cfgC2 flatDM
          (writeOp cfgC2 flatDM
            { point := 0, bufferLoc := 0, dataSize := 0, isDirty := false, buffer := b }
            { blockSize := 512, capacity := cap, pos := 0, contents := g } src 0 10000).2.1
          (writeOp cfgC2 flatDM
            { point := 0, bufferLoc := 0, dataSize := 0, isDirty := false, buffer := b }
            { blockSize := 512, capacity := cap, pos := 0, contents := g } src 0 10000).2.2
          0).2.2
        m0 0 10000).2.2.2 (i : Int) = src (i : Int) := by
  refine ⟨rfl, ?_, ?_, ?_, ?_⟩
  · simp only [c2_write cap hcap]
  · simp only [c2_write cap hcap, c2_seek cap hcap]
  · simp only [readOp, c2_write cap hcap, c2_seek cap hcap, c2_rA, c2_rB cap hcap,
      c2_rC cap hcap]
  · intro i hi
    simp only [readOp, c2_write cap hcap, c2_seek cap hcap, c2_rA, c2_rB cap hcap,
      c2_rC cap hcap]
    exact c2_data cap hcap g src b m0 (i : Int) (Int.natCast_nonneg i) (by exact_mod_cast hi)

/-- Witness for C2: at capacity exactly 20 blocks with zeroed memories, the
scenario's write returns 10000 and the seek returns 0. -/
theorem c2_scenario_round_trip_witness :
    (writeOp cfgC2 flatDM
      { point := 0, bufferLoc := 0, dataSize := 0, isDirty := false, buffer := zeroMem }
      { blockSize := 512, capacity := 20, pos := 0, contents := zeroMem }
      zeroMem 0 10000).1 = 10000 ∧
    (seekOp cfgC2 flatDM
      (writeOp cfgC2 flatDM
        { point := 0, bufferLoc := 0, dataSize := 0, isDirty := false, buffer := zeroMem }
        { blockSize := 512, capacity := 20, pos := 0, contents := zeroMem }
        zeroMem 0 10000).2.1
      (writeOp cfgC2 flatDM
        { point := 0, bufferLoc := 0, dataSize := 0, isDirty := false, buffer := zeroMem }
        { blockSize := 512, capacity := 20, pos := 0, contents := zeroMem }
        zeroMem 0 10000).2.2
      0).1 = 0 :=
  ⟨(c2_scenario_round_trip 20 (by decide) zeroMem zeroMem zeroMem zeroMem).2.1,
   (c2_scenario_round_trip 20 (by decide) zeroMem zeroMem zeroMem zeroMem).2.2.1⟩
